import Mathlib

/-!
Verification of the deepeval metric pipeline (bias, faithfulness,
summarization metrics, cache orchestrator) against its specification.

The Python source is shallowly embedded: judge-model calls are abstracted
as oracle functions from stage inputs to parsed stage outputs (the prompt
templates and the JSON parser are pure external collaborators, so a judge
response is a function of the stage and its inputs); Python float scores
are modelled as rationals; fallible stages return `Except`; the
`ContextVar`-backed stage outputs are task-local while plain instance
attributes are shared, which the concurrency model below makes explicit.
-/

set_option maxRecDepth 4096

namespace DeepevalSpec

/-- Errors a metric evaluation can abort with: a failed required-parameter
check, a judge-response parse failure, the coverage length-mismatch
`ValueError`, and an out-of-range index while pairing questions with
answers. -/
inductive EvalError where
  | missingParams (metricName : String)
  | parseError (metricName : String) (raw : String)
  | lengthMismatch (msg : String)
  | indexError
  deriving Repr, DecidableEq

/-- Embeds `LLMTestCase`: the fields the three metrics read. Optional
fields model Python attributes that may be `None`; the required-parameter
check validates their presence. -/
structure LLMTestCase where
  input : Option String
  actual_output : Option String
  retrieval_context : Option (List String)
  deriving Repr, DecidableEq

/-- Embeds Python `str.strip()` (no argument): drop leading and trailing
whitespace. -/
def pyStrip (s : String) : String :=
  ⟨((s.data.dropWhile Char.isWhitespace).reverse.dropWhile
      Char.isWhitespace).reverse⟩

/-- Embeds Python `str.lower()`: lowercase every character. -/
def pyLower (s : String) : String :=
  ⟨s.data.map Char.toLower⟩

/-- Embeds the per-verdict label normalisation
`verdict.strip().lower()` used by every label comparison in the three
metrics. -/
def normLabel (s : String) : String :=
  pyLower (pyStrip s)

/-! ## Bias metric (src/deepeval/metrics/bias/bias.py) -/

/-- Embeds the pydantic model `BiasVerdict`: a label plus an optional
reason (the `reason` field defaults to `None`). -/
structure BiasVerdict where
  verdict : String
  reason : Option String := none
  deriving Repr, DecidableEq

/-- Embeds the configuration fields `BiasMetric.__init__` stores on the
object: they are read-only during measurement. `threshold` is the value
stored by `__init__`, i.e. already forced to 0 when `strict_mode` is set
(see `biasInitThreshold`). -/
structure BiasConfig where
  threshold : ℚ
  strict_mode : Bool
  include_reason : Bool
  async_mode : Bool
  using_native_model : Bool
  deriving Repr, DecidableEq

/-- Embeds the line `self.threshold = 0 if strict_mode else threshold` of
`BiasMetric.__init__`. -/
def biasInitThreshold (strict_mode : Bool) (threshold : ℚ) : ℚ :=
  if strict_mode then 0 else threshold

/-- The judge model seen through the bias prompt templates and the JSON
parser: one oracle per stage, with separate sync (`generate`) and async
(`a_generate`) channels, returning the parsed payload or a parse error. -/
structure BiasJudge where
  genOpinions : String → Except EvalError (List String)
  aGenOpinions : String → Except EvalError (List String)
  genVerdicts : List String → Except EvalError (List BiasVerdict)
  aGenVerdicts : List String → Except EvalError (List BiasVerdict)
  genReason : List String → ℚ → Except EvalError String
  aGenReason : List String → ℚ → Except EvalError String

/-- Embeds `BiasMetric._calculate_score`: with no verdicts the score is 0,
otherwise the fraction of verdicts whose normalised label is "yes",
snapped up to 1 when `strict_mode` holds and the score exceeds the stored
threshold. -/
def biasCalculateScore (cfg : BiasConfig) (verdicts : List BiasVerdict) : ℚ :=
  let number_of_verdicts := verdicts.length
  if number_of_verdicts = 0 then 0
  else
    let bias_count := verdicts.countP (fun v => normLabel v.verdict == "yes")
    let score : ℚ := (bias_count : ℚ) / (number_of_verdicts : ℚ)
    if cfg.strict_mode ∧ score > cfg.threshold then 1 else score

/-- Embeds `BiasMetric._generate_verdicts` (and its async twin up to the
judge channel): an empty opinion list short-circuits to no verdicts. -/
def biasGenerateVerdicts (call : List String → Except EvalError (List BiasVerdict))
    (opinions : List String) : Except EvalError (List BiasVerdict) :=
  if opinions.length = 0 then .ok []
  else call opinions

/-- Embeds the verdict filter of `BiasMetric._generate_reason`: the
reasons of the verdicts whose normalised label is "yes". -/
def biasSelectBiases (verdicts : List BiasVerdict) : List String :=
  (verdicts.filter (fun v => normLabel v.verdict == "yes")).map
    (fun v => v.reason.getD "")

/-- Embeds `BiasMetric._generate_reason` / `_a_generate_reason` (both call
the sync `generate` channel in the source): skipped when
`include_reason` is off. -/
def biasGenerateReason (cfg : BiasConfig)
    (call : List String → ℚ → Except EvalError String)
    (verdicts : List BiasVerdict) (score : ℚ) :
    Except EvalError (Option String) :=
  if cfg.include_reason = false then .ok none
  else (call (biasSelectBiases verdicts) score).map some

/-- The per-evaluation state the pipeline records: the `ContextVar` stage
outputs plus the plain result attributes `score`, `reason`, `success`. -/
structure BiasEvalState where
  opinions : List String
  verdicts : List BiasVerdict
  score : ℚ
  reason : Option String
  success : Bool
  deriving Repr, DecidableEq

/-- Embeds the required-parameter precondition of the bias metric
(`required_params = [INPUT, ACTUAL_OUTPUT]`): the check
`check_llm_test_case_params` lives outside src/, so its behaviour is
modelled from the spec, which says a missing required field fails fast
with a validation error naming the metric. -/
def biasCheckParams (tc : LLMTestCase) : Except EvalError Unit :=
  if tc.input.isSome ∧ tc.actual_output.isSome then .ok ()
  else .error (.missingParams "Bias")

/-- Embeds the `else` (sync) body of `BiasMetric.measure`: opinions,
verdicts, score, reason, success in order, all through the sync judge
channel. -/
def biasMeasureSyncBody (cfg : BiasConfig) (j : BiasJudge) (tc : LLMTestCase) :
    Except EvalError BiasEvalState := do
  let opinions ← j.genOpinions (tc.actual_output.getD "")
  let verdicts ← biasGenerateVerdicts j.genVerdicts opinions
  let score := biasCalculateScore cfg verdicts
  let reason ← biasGenerateReason cfg j.genReason verdicts score
  let success := decide (score ≤ cfg.threshold)
  return { opinions, verdicts, score, reason, success }

/-- Embeds `BiasMetric.a_measure`: same stage order as the sync body, but
opinions and verdicts go through the async judge channel, while the
reason stage calls the sync `generate` channel exactly as the source
does. Returns the recorded state; the coroutine returns `self.score`. -/
def biasAMeasure (cfg : BiasConfig) (j : BiasJudge) (tc : LLMTestCase) :
    Except EvalError BiasEvalState := do
  let _ ← biasCheckParams tc
  let opinions ← j.aGenOpinions (tc.actual_output.getD "")
  let verdicts ← biasGenerateVerdicts j.aGenVerdicts opinions
  let score := biasCalculateScore cfg verdicts
  let reason ← biasGenerateReason cfg j.genReason verdicts score
  let success := decide (score ≤ cfg.threshold)
  return { opinions, verdicts, score, reason, success }

/-- Embeds `BiasMetric.measure`. The first component is the value the
call returns to the caller: in the `async_mode` branch the source drives
`_measure_async` to completion, assigns the state attributes and falls
off the end of the function without a `return` statement, so the Python
call yields `None` (`none` here); only the sync branch executes
`return self.score`. -/
def biasMeasure (cfg : BiasConfig) (j : BiasJudge) (tc : LLMTestCase) :
    Except EvalError (Option ℚ × BiasEvalState) := do
  let _ ← biasCheckParams tc
  if cfg.async_mode then
    let st ← biasAMeasure cfg j tc
    return (none, st)
  else
    let st ← biasMeasureSyncBody cfg j tc
    return (some st.score, st)

/-! ## Faithfulness metric (src/deepeval/metrics/faithfulness/faithfulness.py) -/

/-- Embeds the pydantic model `FaithfulnessVerdict`. -/
structure FaithfulnessVerdict where
  verdict : String
  reason : Option String := none
  deriving Repr, DecidableEq

/-- Embeds the configuration fields of `FaithfulnessMetric.__init__`;
`threshold` is the stored value, already forced to 1 under strict mode
(see `faithfulnessInitThreshold`). -/
structure FaithfulnessConfig where
  threshold : ℚ
  strict_mode : Bool
  include_reason : Bool
  async_mode : Bool
  using_native_model : Bool
  deriving Repr, DecidableEq

/-- Embeds the line `self.threshold = 1 if strict_mode else threshold` of
`FaithfulnessMetric.__init__`. -/
def faithfulnessInitThreshold (strict_mode : Bool) (threshold : ℚ) : ℚ :=
  if strict_mode then 1 else threshold

/-- Judge oracles for the faithfulness stages, one per channel. Truths are
extracted from the joined retrieval context, claims from the actual
output; verdicts take the claims and the joined truths. -/
structure FaithfulnessJudge where
  genTruths : String → Except EvalError (List String)
  aGenTruths : String → Except EvalError (List String)
  genClaims : String → Except EvalError (List String)
  aGenClaims : String → Except EvalError (List String)
  genVerdicts : List String → String → Except EvalError (List FaithfulnessVerdict)
  aGenVerdicts : List String → String → Except EvalError (List FaithfulnessVerdict)
  genReason : List String → ℚ → Except EvalError String
  aGenReason : List String → ℚ → Except EvalError String

/-- Embeds `FaithfulnessMetric._calculate_score`: with no verdicts the
score is 1, otherwise the fraction of verdicts whose normalised label is
not "no", snapped down to 0 when `strict_mode` holds and the score is
below the stored threshold. -/
def faithfulnessCalculateScore (cfg : FaithfulnessConfig)
    (verdicts : List FaithfulnessVerdict) : ℚ :=
  let number_of_verdicts := verdicts.length
  if number_of_verdicts = 0 then 1
  else
    let faithfulness_count := verdicts.countP (fun v => !(normLabel v.verdict == "no"))
    let score : ℚ := (faithfulness_count : ℚ) / (number_of_verdicts : ℚ)
    if cfg.strict_mode ∧ score < cfg.threshold then 0 else score

/-- Embeds the verdict filter of `FaithfulnessMetric._generate_reason`:
the reasons of the verdicts whose normalised label is "no". -/
def faithfulnessSelectContradictions (verdicts : List FaithfulnessVerdict) :
    List String :=
  (verdicts.filter (fun v => normLabel v.verdict == "no")).map
    (fun v => v.reason.getD "")

/-- Embeds `FaithfulnessMetric._generate_verdicts` and its async twin up
to the channel: no claims short-circuits to no verdicts. -/
def faithfulnessGenerateVerdicts
    (call : List String → String → Except EvalError (List FaithfulnessVerdict))
    (claims truthsJoined : List String) :
    Except EvalError (List FaithfulnessVerdict) :=
  if claims.length = 0 then .ok []
  else call claims (String.intercalate "\n\n" truthsJoined)

/-- Embeds `FaithfulnessMetric._generate_reason` / `_a_generate_reason`
(both use the sync `generate` channel). -/
def faithfulnessGenerateReason (cfg : FaithfulnessConfig)
    (call : List String → ℚ → Except EvalError String)
    (verdicts : List FaithfulnessVerdict) (score : ℚ) :
    Except EvalError (Option String) :=
  if cfg.include_reason = false then .ok none
  else (call (faithfulnessSelectContradictions verdicts) score).map some

/-- The per-evaluation state the faithfulness pipeline records. -/
structure FaithfulnessEvalState where
  truths : List String
  claims : List String
  verdicts : List FaithfulnessVerdict
  score : ℚ
  reason : Option String
  success : Bool
  deriving Repr, DecidableEq

/-- Embeds the faithfulness required-parameter precondition
(`required_params = [INPUT, ACTUAL_OUTPUT, RETRIEVAL_CONTEXT]`); the
check itself lives outside src/ and is modelled from the spec. -/
def faithfulnessCheckParams (tc : LLMTestCase) : Except EvalError Unit :=
  if tc.input.isSome ∧ tc.actual_output.isSome ∧ tc.retrieval_context.isSome
  then .ok ()
  else .error (.missingParams "Faithfulness")

/-- Embeds the `else` (sync) body of `FaithfulnessMetric.measure`. -/
def faithfulnessMeasureSyncBody (cfg : FaithfulnessConfig)
    (j : FaithfulnessJudge) (tc : LLMTestCase) :
    Except EvalError FaithfulnessEvalState := do
  let truths ← j.genTruths
    (String.intercalate "\n\n" (tc.retrieval_context.getD []))
  let claims ← j.genClaims (tc.actual_output.getD "")
  let verdicts ← faithfulnessGenerateVerdicts j.genVerdicts claims truths
  let score := faithfulnessCalculateScore cfg verdicts
  let reason ← faithfulnessGenerateReason cfg j.genReason verdicts score
  let success := decide (score ≥ cfg.threshold)
  return { truths, claims, verdicts, score, reason, success }

/-- Embeds `FaithfulnessMetric.a_measure`: truths and claims are gathered
through the async channel; the verdict stage of `_a_generate_verdicts`
awaits `a_generate` for a native model but calls the sync `generate` for
a custom model, exactly as the source does; the reason stage uses the
sync channel in both branches. -/
def faithfulnessAMeasure (cfg : FaithfulnessConfig) (j : FaithfulnessJudge)
    (tc : LLMTestCase) : Except EvalError FaithfulnessEvalState := do
  let _ ← faithfulnessCheckParams tc
  let truths ← j.aGenTruths
    (String.intercalate "\n\n" (tc.retrieval_context.getD []))
  let claims ← j.aGenClaims (tc.actual_output.getD "")
  let verdictChannel :=
    if cfg.using_native_model then j.aGenVerdicts else j.genVerdicts
  let verdicts ← faithfulnessGenerateVerdicts verdictChannel claims truths
  let score := faithfulnessCalculateScore cfg verdicts
  let reason ← faithfulnessGenerateReason cfg j.genReason verdicts score
  let success := decide (score ≥ cfg.threshold)
  return { truths, claims, verdicts, score, reason, success }

/-- Embeds `FaithfulnessMetric.measure`: the sync branch returns the
score, the `async_mode` branch drives `_measure_async` to completion and
assigns the state attributes but has no `return` statement, so the call
returns `None`. -/
def faithfulnessMeasure (cfg : FaithfulnessConfig) (j : FaithfulnessJudge)
    (tc : LLMTestCase) :
    Except EvalError (Option ℚ × FaithfulnessEvalState) := do
  let _ ← faithfulnessCheckParams tc
  if cfg.async_mode then
    let st ← faithfulnessAMeasure cfg j tc
    return (none, st)
  else
    let st ← faithfulnessMeasureSyncBody cfg j tc
    return (some st.score, st)

/-! ## Summarization metric (src/deepeval/metrics/summarization/summarization.py) -/

/-- Embeds the pydantic model `SummarizationAlignmentVerdict`
(labels yes, no, or idk). -/
structure SummarizationAlignmentVerdict where
  verdict : String
  reason : Option String := none
  deriving Repr, DecidableEq

/-- Embeds the pydantic model `SummarizationCoverageVerdict`: per
assessment question, the answer against the candidate summary and against
the original text. -/
structure SummarizationCoverageVerdict where
  summary_verdict : String
  original_verdict : String
  question : Option String := none
  deriving Repr, DecidableEq

/-- Embeds the enum `ScoreType`. -/
inductive ScoreType where
  | ALIGNMENT
  | COVERAGE
  deriving Repr, DecidableEq

/-- Embeds the line of `SummarizationMetric.__init__` that normalises an
empty `assessment_questions` list to `None`. -/
def summInitAssessmentQuestions (aq : Option (List String)) :
    Option (List String) :=
  match aq with
  | some [] => none
  | x => x

/-- Embeds the configuration fields of `SummarizationMetric.__init__`;
`threshold` is the stored value (forced to 1 under strict mode) and
`assessment_questions` is the stored, already normalised value. The
`assessment_questions` attribute is the one configuration field the
pipeline later mutates (coverage-verdict generation overwrites it), so
the pipeline threads its current value explicitly. -/
structure SummarizationConfig where
  threshold : ℚ
  n : ℕ
  assessment_questions : Option (List String)
  include_reason : Bool
  strict_mode : Bool
  async_mode : Bool
  using_native_model : Bool
  deriving Repr, DecidableEq

/-- Judge oracles for the summarization stages (sync channel; the claims
settled on this metric go through the sync `measure` body). -/
structure SummarizationJudge where
  genClaims : String → Except EvalError (List String)
  genQuestions : String → ℕ → Except EvalError (List String)
  genAnswers : List String → String → Except EvalError (List String)
  genAlignmentVerdicts :
    List String → String → Except EvalError (List SummarizationAlignmentVerdict)
  genReason :
    List String → List String → List String → ℚ → Except EvalError String

/-- Embeds `SummarizationMetric._calculate_score`, parameterised by the
value of `self.assessment_questions` at call time (it may have been
overwritten by coverage-verdict generation). Alignment: fraction of
verdicts whose normalised label is "yes", 0 on no verdicts. Coverage: 1
when the questions attribute is `None`; otherwise the fraction, among
pairs whose original answer is "yes", of pairs whose summary answer is
also "yes", and 0 when no original answer is "yes". Both branches snap a
computed fraction to 0 when `strict_mode` holds and it is below the
threshold. -/
def summarizationCalculateScore (strict_mode : Bool) (threshold : ℚ)
    (assessment_questions : Option (List String))
    (alignment_verdicts : List SummarizationAlignmentVerdict)
    (coverage_verdicts : List SummarizationCoverageVerdict)
    (score_type : ScoreType) : ℚ :=
  match score_type with
  | .ALIGNMENT =>
    let total := alignment_verdicts.length
    if total = 0 then 0
    else
      let faithfulness_count :=
        alignment_verdicts.countP (fun v => normLabel v.verdict == "yes")
      let score : ℚ := (faithfulness_count : ℚ) / (total : ℚ)
      if strict_mode ∧ score < threshold then 0 else score
  | .COVERAGE =>
    match assessment_questions with
    | none => 1
    | some _ =>
      let total :=
        coverage_verdicts.countP
          (fun v => normLabel v.original_verdict == "yes")
      let coverage_count :=
        coverage_verdicts.countP
          (fun v => normLabel v.original_verdict == "yes"
            && normLabel v.summary_verdict == "yes")
      if total = 0 then 0
      else
        let score : ℚ := (coverage_count : ℚ) / (total : ℚ)
        if strict_mode ∧ score < threshold then 0 else score

/-- Embeds `SummarizationMetric._generate_coverage_verdicts` (sync):
when the `assessment_questions` attribute is `None` the questions are
generated from the input and stored back on the attribute; the judge then
answers each question against the original input and against the
candidate output; differing answer counts raise the length-mismatch
`ValueError`; otherwise the answers are paired positionally with
`self.assessment_questions[i]` (an out-of-range index would raise).
Returns the new attribute value together with the verdicts. -/
def summGenerateCoverageVerdicts (cfg : SummarizationConfig)
    (j : SummarizationJudge) (tc : LLMTestCase)
    (aq0 : Option (List String)) :
    Except EvalError (List String × List SummarizationCoverageVerdict) := do
  let aq ← match aq0 with
    | none => j.genQuestions (tc.input.getD "") cfg.n
    | some qs => pure qs
  let original_answers ← j.genAnswers aq (tc.input.getD "")
  let summary_answers ← j.genAnswers aq (tc.actual_output.getD "")
  if original_answers.length ≠ summary_answers.length then
    throw (.lengthMismatch "Number of verdicts generated does not equal.")
  let verdicts ← (List.range original_answers.length).mapM (fun i =>
    match original_answers[i]?, summary_answers[i]?, aq[i]? with
    | some o, some s, some q =>
      pure { summary_verdict := s, original_verdict := o, question := some q
             : SummarizationCoverageVerdict }
    | _, _, _ => throw .indexError)
  return (aq, verdicts)

/-- Embeds `SummarizationMetric._generate_alignment_verdicts`: no claims
short-circuits to no verdicts; otherwise the judge sees the claims and
the joined truths. -/
def summGenerateAlignmentVerdicts (j : SummarizationJudge)
    (claims truths : List String) :
    Except EvalError (List SummarizationAlignmentVerdict) :=
  if claims.length = 0 then .ok []
  else j.genAlignmentVerdicts claims (String.intercalate "\n\n" truths)

/-- Embeds the verdict filters of `SummarizationMetric._generate_reason`:
contradictions are the reasons of "no" alignment verdicts, redundancies
the reasons of "idk" alignment verdicts, and the listed questions are
those whose original answer is "yes" but summary answer is "no". -/
def summReasonInputs (alignment_verdicts : List SummarizationAlignmentVerdict)
    (coverage_verdicts : List SummarizationCoverageVerdict) :
    List String × List String × List String :=
  let contradictions :=
    (alignment_verdicts.filter (fun v => normLabel v.verdict == "no")).map
      (fun v => v.reason.getD "")
  let redundancies :=
    (alignment_verdicts.filter (fun v => normLabel v.verdict == "idk")).map
      (fun v => v.reason.getD "")
  let questions :=
    (coverage_verdicts.filter (fun v =>
      normLabel v.original_verdict == "yes"
        && normLabel v.summary_verdict == "no")).map
      (fun v => v.question.getD "")
  (contradictions, redundancies, questions)

/-- Embeds `SummarizationMetric._generate_reason`: skipped when
`include_reason` is off. -/
def summGenerateReason (cfg : SummarizationConfig) (j : SummarizationJudge)
    (alignment_verdicts : List SummarizationAlignmentVerdict)
    (coverage_verdicts : List SummarizationCoverageVerdict) (score : ℚ) :
    Except EvalError (Option String) :=
  if cfg.include_reason = false then .ok none
  else
    let inputs := summReasonInputs alignment_verdicts coverage_verdicts
    (j.genReason inputs.1 inputs.2.1 inputs.2.2 score).map some

/-- The state a summarization evaluation records, including the value of
the `assessment_questions` attribute after the evaluation. -/
structure SummarizationEvalState where
  truths : List String
  claims : List String
  coverage_verdicts : List SummarizationCoverageVerdict
  alignment_verdicts : List SummarizationAlignmentVerdict
  coverage_score : ℚ
  alignment_score : ℚ
  score : ℚ
  reason : Option String
  success : Bool
  assessment_questions : Option (List String)
  deriving Repr, DecidableEq

/-- Embeds the summarization required-parameter precondition
(`required_params = [INPUT, ACTUAL_OUTPUT]`); the check itself lives
outside src/ and is modelled from the spec. -/
def summarizationCheckParams (tc : LLMTestCase) : Except EvalError Unit :=
  if tc.input.isSome ∧ tc.actual_output.isSome then .ok ()
  else .error (.missingParams "Summarization")

/-- Embeds the `else` (sync) body of `SummarizationMetric.measure`:
truths and claims both come from the claims stage (on the input and on
the actual output respectively), then coverage verdicts (which may
overwrite the `assessment_questions` attribute), then alignment
verdicts; the alignment and coverage scores are computed with the
attribute value current at that point, the final score is their minimum,
and success compares it against the threshold. -/
def summarizationMeasureSyncBody (cfg : SummarizationConfig)
    (j : SummarizationJudge) (tc : LLMTestCase) :
    Except EvalError SummarizationEvalState := do
  let truths ← j.genClaims (tc.input.getD "")
  let claims ← j.genClaims (tc.actual_output.getD "")
  let (aq, coverage_verdicts) ←
    summGenerateCoverageVerdicts cfg j tc cfg.assessment_questions
  let alignment_verdicts ← summGenerateAlignmentVerdicts j claims truths
  let alignment_score := summarizationCalculateScore cfg.strict_mode
    cfg.threshold (some aq) alignment_verdicts coverage_verdicts .ALIGNMENT
  let coverage_score := summarizationCalculateScore cfg.strict_mode
    cfg.threshold (some aq) alignment_verdicts coverage_verdicts .COVERAGE
  let score := min alignment_score coverage_score
  let reason ← summGenerateReason cfg j alignment_verdicts coverage_verdicts score
  let success := decide (score ≥ cfg.threshold)
  return { truths, claims, coverage_verdicts, alignment_verdicts,
           coverage_score, alignment_score, score, reason, success,
           assessment_questions := some aq }

/-- Embeds `SummarizationMetric.measure` for `async_mode = False`
configurations: the required-parameter check, the sync stage chain, and
`return self.score`. (The `async_mode` branch mirrors the bias and
faithfulness embeddings: it drives `a_measure` through the async judge
channels and falls off the end without a `return`.) -/
def summarizationMeasure (cfg : SummarizationConfig)
    (j : SummarizationJudge) (tc : LLMTestCase) :
    Except EvalError (ℚ × SummarizationEvalState) := do
  let _ ← summarizationCheckParams tc
  let st ← summarizationMeasureSyncBody cfg j tc
  return (st.score, st)

/-! ## is_successful (all three metrics) -/

/-- The attributes the three `is_successful` implementations read.
`error` and `score` default to `None` on `BaseMetric` (the base class is
outside src/; that the attributes exist with default `None` is modelled
from the spec, which lets status queries run before any score exists or
after a recorded error). A `score` of `None` makes the Python comparison
against the threshold raise `TypeError`, which the bare `except` of
`is_successful` turns into `success = False`; `none` here takes that
branch. -/
structure MetricStatus where
  error : Option String
  score : Option ℚ
  threshold : ℚ
  deriving Repr, DecidableEq

/-- Embeds `BiasMetric.is_successful`: a recorded error forces `False`;
otherwise `self.score <= self.threshold`, with a failed comparison
(score never computed) caught and turned into `False`. -/
def biasIsSuccessful (st : MetricStatus) : Bool :=
  if st.error.isSome then false
  else
    match st.score with
    | none => false
    | some s => decide (s ≤ st.threshold)

/-- Embeds `FaithfulnessMetric.is_successful` (comparison direction
`score >= threshold`). -/
def faithfulnessIsSuccessful (st : MetricStatus) : Bool :=
  if st.error.isSome then false
  else
    match st.score with
    | none => false
    | some s => decide (s ≥ st.threshold)

/-- Embeds `SummarizationMetric.is_successful` (comparison direction
`score >= threshold`). -/
def summarizationIsSuccessful (st : MetricStatus) : Bool :=
  if st.error.isSome then false
  else
    match st.score with
    | none => false
    | some s => decide (s ≥ st.threshold)

/-! ## Cache orchestrator (src/deepeval/metrics/indicator.py) -/

/-- Embeds the cached `metric_metadata` record the orchestrator reads on
a hit (schema taken from the fields the two code paths copy). -/
structure MetricMetadata where
  score : ℚ
  threshold : ℚ
  success : Bool
  reason : Option String
  strict_mode : Bool
  evaluation_model : String
  deriving Repr, DecidableEq

/-- The metric-object attributes the orchestrator can touch. -/
structure OrchMetricState where
  score : Option ℚ
  threshold : ℚ
  success : Option Bool
  reason : Option String
  strict_mode : Bool
  evaluation_model : String
  deriving Repr, DecidableEq

/-- Embeds `measure_metric_task` (the indicator path of the
orchestrator): on a populated cache entry it assigns only `score`,
`success` and `reason` (the source comment reads "only change metric
state, not configs") and issues no judge call; on a miss it awaits
`a_measure`, abstracted here as a function returning the new metric
state and the number of judge calls it issued. The second component of
the result counts the judge calls of the whole task. -/
def measureMetricTask (cached : Option MetricMetadata)
    (metric : OrchMetricState)
    (aMeasure : OrchMetricState → OrchMetricState × ℕ) :
    OrchMetricState × ℕ :=
  match cached with
  | some md =>
    ({ metric with
        score := some md.score
        success := some md.success
        reason := md.reason }, 0)
  | none => aMeasure metric

/-- Embeds the `else` (indicator-disabled) branch of
`measure_metrics_with_indicator` for one metric: on a populated cache
entry it assigns `score`, `threshold`, `success`, `reason`,
`strict_mode` and `evaluation_model`, issuing no judge call; on a miss
it schedules `a_measure`. -/
def measureMetricNoIndicator (cached : Option MetricMetadata)
    (metric : OrchMetricState)
    (aMeasure : OrchMetricState → OrchMetricState × ℕ) :
    OrchMetricState × ℕ :=
  match cached with
  | some md =>
    ({ score := some md.score
       threshold := md.threshold
       success := some md.success
       reason := md.reason
       strict_mode := md.strict_mode
       evaluation_model := md.evaluation_model }, 0)
  | none => aMeasure metric

/-! ## Concurrency model for `_a_generate_coverage_verdicts`

Two evaluations of distinct test cases run `a_measure` concurrently on
one shared `SummarizationMetric` object. The `ContextVar`-backed stage
outputs are task-local by construction, but `self.assessment_questions`
is a plain instance attribute: the coroutine
`_a_generate_coverage_verdicts` reads it, writes it after the
question-generation await, and reads it again when pairing answers with
questions. The model below cuts each task into its atomic segments (the
code between awaits) and lets a schedule pick which task runs each
segment, with the `assessment_questions` attribute as the shared state.
-/

/-- Deterministic judge for the coverage stages (total functions: the
interleaving claims need no failure channel for question generation or
answering beyond the length check). -/
structure CovJudge where
  questions : String → List String
  answers : List String → String → List String

/-- The test-case fields one coverage task reads. -/
structure CovCase where
  input : String
  actual_output : String
  deriving Repr, DecidableEq

/-- Program counter of one coverage task, one value per atomic segment of
`_a_generate_coverage_verdicts`:
`start` runs from entry to the first await (reads the shared attribute;
if it is `None`, starts question generation and suspends, else launches
the two answer calls with the questions it read and suspends at the
gather); `writeQ` resumes after question generation (writes the shared
attribute, launches the answer calls, suspends at the gather); `buildV`
resumes after the gather (re-reads the shared attribute to pair answers
with `self.assessment_questions[i]`, after the length check). -/
inductive CovPC where
  | start
  | writeQ
  | buildV
  | finished
  deriving Repr, DecidableEq

instance {ε α : Type} [DecidableEq ε] [DecidableEq α] :
    DecidableEq (Except ε α) := fun a b =>
  match a, b with
  | .ok x, .ok y =>
    if h : x = y then .isTrue (by simp [h]) else .isFalse (by simp [h])
  | .error x, .error y =>
    if h : x = y then .isTrue (by simp [h]) else .isFalse (by simp [h])
  | .ok _, .error _ => .isFalse (by simp)
  | .error _, .ok _ => .isFalse (by simp)

/-- Task-local state of one coverage evaluation (coroutine frame). -/
structure CovTask where
  tc : CovCase
  pc : CovPC
  pending : List String := []
  origAnswers : List String := []
  summAnswers : List String := []
  result : Option (Except EvalError (List SummarizationCoverageVerdict)) := none
  deriving Repr, DecidableEq

/-- One atomic segment of one task against the shared
`assessment_questions` attribute; returns the new attribute value and
the new task frame. -/
def covStepTask (j : CovJudge) (shared : Option (List String))
    (t : CovTask) : Option (List String) × CovTask :=
  match t.pc with
  | .start =>
    match shared with
    | none =>
      (shared, { t with pending := j.questions t.tc.input, pc := .writeQ })
    | some qs =>
      (shared, { t with
          origAnswers := j.answers qs t.tc.input
          summAnswers := j.answers qs t.tc.actual_output
          pc := .buildV })
  | .writeQ =>
    let qs := t.pending
    (some qs, { t with
        origAnswers := j.answers qs t.tc.input
        summAnswers := j.answers qs t.tc.actual_output
        pc := .buildV })
  | .buildV =>
    let qs := shared.getD []
    if t.origAnswers.length ≠ t.summAnswers.length then
      (shared, { t with
          result := some (.error (.lengthMismatch
            "Number of verdicts generated does not equal."))
          pc := .finished })
    else
      let verdicts := (List.range t.origAnswers.length).map (fun i =>
        { summary_verdict := t.summAnswers.getD i ""
          original_verdict := t.origAnswers.getD i ""
          question := qs[i]? : SummarizationCoverageVerdict })
      (shared, { t with result := some (.ok verdicts), pc := .finished })
  | .finished => (shared, t)

/-- The shared metric attribute plus the two task frames. -/
structure CovSystem where
  assessment_questions : Option (List String)
  taskA : CovTask
  taskB : CovTask
  deriving Repr, DecidableEq

/-- Runs one schedule entry: `false` steps task A, `true` steps task B. -/
def covStep (j : CovJudge) (s : CovSystem) (pick : Bool) : CovSystem :=
  if pick then
    let (sh, t) := covStepTask j s.assessment_questions s.taskB
    { s with assessment_questions := sh, taskB := t }
  else
    let (sh, t) := covStepTask j s.assessment_questions s.taskA
    { s with assessment_questions := sh, taskA := t }

/-- Runs a whole schedule (an interleaving of the two tasks). -/
def covRun (j : CovJudge) (s : CovSystem) : List Bool → CovSystem
  | [] => s
  | pick :: rest => covRun j (covStep j s pick) rest

/-- Initial system: the caller configured no assessment questions and
both tasks are about to enter `_a_generate_coverage_verdicts`. -/
def covInit (tcA tcB : CovCase) : CovSystem :=
  { assessment_questions := none
    taskA := { tc := tcA, pc := .start }
    taskB := { tc := tcB, pc := .start } }

/-! ## Helper lemmas -/

/-- A count over a total divided by the total lies in the unit interval. -/
lemma ratio_bounds (c n : ℕ) (h : c ≤ n) :
    0 ≤ (c : ℚ) / (n : ℚ) ∧ (c : ℚ) / (n : ℚ) ≤ 1 := by
  refine ⟨by positivity, ?_⟩
  rcases Nat.eq_zero_or_pos n with hn | hn
  · have hc : c = 0 := Nat.le_zero.mp (hn ▸ h)
    simp [hc, hn]
  · rw [div_le_one (by exact_mod_cast hn)]
    exact_mod_cast h

/-- Inverts one `Except` bind that ended in `.ok`. -/
lemma except_bind_ok {α β : Type} {x : Except EvalError α}
    {f : α → Except EvalError β} {b : β} (h : (x >>= f) = .ok b) :
    ∃ a, x = .ok a ∧ f a = .ok b := by
  cases x with
  | error e => simp [Bind.bind, Except.bind] at h
  | ok a => exact ⟨a, rfl, by simpa [Bind.bind, Except.bind] using h⟩

/-! ## Concrete fixtures used by witnesses and counterexamples -/

/-- The verdict list of spec §8: one "yes" among four. -/
def exampleBiasVerdicts : List BiasVerdict :=
  [{ verdict := "yes", reason := some "b1" }, { verdict := "no" },
   { verdict := "no" }, { verdict := "no" }]

/-- A deterministic judge whose sync and async channels agree and which
always returns the fixture verdicts. -/
def exampleBiasJudge : BiasJudge where
  genOpinions _ := .ok ["o1", "o2", "o3", "o4"]
  aGenOpinions _ := .ok ["o1", "o2", "o3", "o4"]
  genVerdicts _ := .ok exampleBiasVerdicts
  aGenVerdicts _ := .ok exampleBiasVerdicts
  genReason _ _ := .ok "because"
  aGenReason _ _ := .ok "because"

/-- A test case carrying every field any of the metrics requires. -/
def exampleTestCase : LLMTestCase :=
  { input := some "in", actual_output := some "out",
    retrieval_context := some ["ctx"] }

/-! ## Claim theorems -/

/-- C10: for every metric and every list of verdicts, the score computed
by the aggregation stage lies in `[0, 1]`: the bias, faithfulness and
summarization (alignment and coverage) calculators, including the
empty-input defaults and the strict-mode snapped values, and the final
summarization score `min(alignment, coverage)`. -/
theorem aggregation_scores_in_unit_interval :
    (∀ (cfg : BiasConfig) (v : List BiasVerdict),
        0 ≤ biasCalculateScore cfg v ∧ biasCalculateScore cfg v ≤ 1)
  ∧ (∀ (cfg : FaithfulnessConfig) (v : List FaithfulnessVerdict),
        0 ≤ faithfulnessCalculateScore cfg v
          ∧ faithfulnessCalculateScore cfg v ≤ 1)
  ∧ (∀ (s : Bool) (θ : ℚ) (aq : Option (List String))
        (av : List SummarizationAlignmentVerdict)
        (cv : List SummarizationCoverageVerdict) (t : ScoreType),
        0 ≤ summarizationCalculateScore s θ aq av cv t
          ∧ summarizationCalculateScore s θ aq av cv t ≤ 1)
  ∧ (∀ (s : Bool) (θ : ℚ) (aq : Option (List String))
        (av : List SummarizationAlignmentVerdict)
        (cv : List SummarizationCoverageVerdict),
        0 ≤ min (summarizationCalculateScore s θ aq av cv .ALIGNMENT)
              (summarizationCalculateScore s θ aq av cv .COVERAGE)
          ∧ min (summarizationCalculateScore s θ aq av cv .ALIGNMENT)
              (summarizationCalculateScore s θ aq av cv .COVERAGE) ≤ 1) := by
  have hbias : ∀ (cfg : BiasConfig) (v : List BiasVerdict),
      0 ≤ biasCalculateScore cfg v ∧ biasCalculateScore cfg v ≤ 1 := by
    intro cfg v
    unfold biasCalculateScore
    dsimp only
    split_ifs with h1 h2
    · norm_num
    · norm_num
    · exact ratio_bounds _ _ (List.countP_le_length _)
  have hfait : ∀ (cfg : FaithfulnessConfig) (v : List FaithfulnessVerdict),
      0 ≤ faithfulnessCalculateScore cfg v
        ∧ faithfulnessCalculateScore cfg v ≤ 1 := by
    intro cfg v
    unfold faithfulnessCalculateScore
    dsimp only
    split_ifs with h1 h2
    · norm_num
    · norm_num
    · exact ratio_bounds _ _ (List.countP_le_length _)
  have hsumm : ∀ (s : Bool) (θ : ℚ) (aq : Option (List String))
      (av : List SummarizationAlignmentVerdict)
      (cv : List SummarizationCoverageVerdict) (t : ScoreType),
      0 ≤ summarizationCalculateScore s θ aq av cv t
        ∧ summarizationCalculateScore s θ aq av cv t ≤ 1 := by
    intro s θ aq av cv t
    cases t with
    | ALIGNMENT =>
      unfold summarizationCalculateScore
      dsimp only
      split_ifs with h1 h2
      · norm_num
      · norm_num
      · exact ratio_bounds _ _ (List.countP_le_length _)
    | COVERAGE =>
      unfold summarizationCalculateScore
      cases aq with
      | none => norm_num
      | some qs =>
        dsimp only
        split_ifs with h1 h2
        · norm_num
        · norm_num
        · refine ratio_bounds _ _ (List.countP_mono_left ?_)
          intro x hx hb
          exact (Bool.and_elim_left hb)
  refine ⟨hbias, hfait, hsumm, ?_⟩
  intro s θ aq av cv
  constructor
  · exact le_min (hsumm s θ aq av cv .ALIGNMENT).1 (hsumm s θ aq av cv .COVERAGE).1
  · exact (min_le_left _ _).trans (hsumm s θ aq av cv .ALIGNMENT).2

end DeepevalSpec
namespace DeepevalSpec

/-- When `a_measure` succeeds, the recorded `success` attribute is the
comparison of the recorded score against the stored threshold. -/
lemma biasAMeasure_ok_success (cfg : BiasConfig) (j : BiasJudge) (tc : LLMTestCase)
    (st : BiasEvalState) (h : biasAMeasure cfg j tc = .ok st) :
    st.success = decide (st.score ≤ cfg.threshold) := by
  unfold biasAMeasure at h
  obtain ⟨u, hu, h⟩ := except_bind_ok h
  obtain ⟨opinions, ho, h⟩ := except_bind_ok h
  obtain ⟨verdicts, hv, h⟩ := except_bind_ok h
  obtain ⟨reason, hr, h⟩ := except_bind_ok h
  simp only [pure, Except.pure, Except.ok.injEq] at h
  subst h
  rfl

/-- When the sync measure body succeeds, the recorded `success` attribute
is the comparison of the recorded score against the stored threshold. -/
lemma biasMeasureSyncBody_ok_success (cfg : BiasConfig) (j : BiasJudge)
    (tc : LLMTestCase) (st : BiasEvalState)
    (h : biasMeasureSyncBody cfg j tc = .ok st) :
    st.success = decide (st.score ≤ cfg.threshold) := by
  unfold biasMeasureSyncBody at h
  obtain ⟨opinions, ho, h⟩ := except_bind_ok h
  obtain ⟨verdicts, hv, h⟩ := except_bind_ok h
  obtain ⟨reason, hr, h⟩ := except_bind_ok h
  simp only [pure, Except.pure, Except.ok.injEq] at h
  subst h
  rfl

/-- Success recorded by `measure` in either branch compares the score
against the threshold. -/
lemma biasMeasure_ok_success (cfg : BiasConfig) (j : BiasJudge)
    (tc : LLMTestCase) (r : Option ℚ × BiasEvalState)
    (h : biasMeasure cfg j tc = .ok r) :
    r.2.success = decide (r.2.score ≤ cfg.threshold) := by
  unfold biasMeasure at h
  obtain ⟨u, hu, h⟩ := except_bind_ok h
  split at h
  · obtain ⟨st, hst, h⟩ := except_bind_ok h
    simp only [pure, Except.pure, Except.ok.injEq] at h
    subst h
    exact biasAMeasure_ok_success cfg j tc st hst
  · obtain ⟨st, hst, h⟩ := except_bind_ok h
    simp only [pure, Except.pure, Except.ok.injEq] at h
    subst h
    exact biasMeasureSyncBody_ok_success cfg j tc st hst

/-- C5: the bias score is the fraction of verdicts whose trimmed,
lowercased label is "yes"; an empty verdict list scores 0; success holds
iff score is at most the threshold; under strict mode the stored
threshold is 0 and a positive computed score is returned as 1, an
unchanged 0 otherwise; the fixture `[yes, no, no, no]` scores 0.25 and,
under strict mode, `measure` returns score 1 with success false. -/
theorem bias_aggregation_and_strict_mode :
    (∀ (cfg : BiasConfig) (v : List BiasVerdict), cfg.strict_mode = false →
        v.length ≠ 0 →
        biasCalculateScore cfg v
          = ((v.countP (fun x => normLabel x.verdict == "yes") : ℕ) : ℚ)
              / (v.length : ℚ))
  ∧ (∀ cfg : BiasConfig, biasCalculateScore cfg [] = 0)
  ∧ (∀ (cfg : BiasConfig) (j : BiasJudge) (tc : LLMTestCase)
        (r : Option ℚ × BiasEvalState),
        biasMeasure cfg j tc = .ok r →
        r.2.success = decide (r.2.score ≤ cfg.threshold))
  ∧ (∀ θ : ℚ, biasInitThreshold true θ = 0)
  ∧ (∀ (cfg : BiasConfig) (v : List BiasVerdict), cfg.strict_mode = true →
        cfg.threshold = 0 →
        0 < v.countP (fun x => normLabel x.verdict == "yes") →
        biasCalculateScore cfg v = 1)
  ∧ (∀ (cfg : BiasConfig) (v : List BiasVerdict), cfg.strict_mode = true →
        cfg.threshold = 0 →
        v.countP (fun x => normLabel x.verdict == "yes") = 0 →
        biasCalculateScore cfg v = 0)
  ∧ biasCalculateScore ⟨1/2, false, true, false, true⟩ exampleBiasVerdicts = 1/4
  ∧ (biasMeasure ⟨biasInitThreshold true (1/2), true, true, false, true⟩
        exampleBiasJudge exampleTestCase).toOption.map
      (fun r => (r.1, r.2.success)) = some (some 1, false) := by
  refine ⟨?_, ?_, biasMeasure_ok_success, fun θ => rfl, ?_, ?_, ?_, ?_⟩
  · intro cfg v hs hl
    unfold biasCalculateScore
    dsimp only
    rw [if_neg hl, if_neg]
    simp [hs]
  · intro cfg
    rfl
  · intro cfg v hs ht hc
    have hle := List.countP_le_length
      (p := fun x => normLabel x.verdict == "yes") (l := v)
    have hl : v.length ≠ 0 := by omega
    unfold biasCalculateScore
    dsimp only
    rw [if_neg hl, if_pos]
    refine ⟨hs, ?_⟩
    rw [ht]
    have h0 : (0 : ℚ) < (v.countP (fun x => normLabel x.verdict == "yes") : ℚ) := by
      exact_mod_cast hc
    have h1 : (0 : ℚ) < (v.length : ℚ) := by
      have : 0 < v.length := by omega
      exact_mod_cast this
    exact div_pos h0 h1
  · intro cfg v hs ht hc
    by_cases hl : v.length = 0
    · unfold biasCalculateScore
      dsimp only
      rw [if_pos hl]
    · unfold biasCalculateScore
      dsimp only
      rw [if_neg hl, hc, ht]
      norm_num
  · unfold biasCalculateScore
    norm_num [show exampleBiasVerdicts.countP
        (fun x => normLabel x.verdict == "yes") = 1 from rfl,
      show exampleBiasVerdicts.length = 4 from rfl]
  · norm_num [biasMeasure, biasMeasureSyncBody, biasCheckParams,
      biasGenerateVerdicts, biasGenerateReason, biasSelectBiases,
      biasInitThreshold, biasCalculateScore, exampleBiasJudge,
      exampleTestCase, exampleBiasVerdicts, Bind.bind, Except.bind, pure,
      Except.pure, Except.map, Except.toOption, List.countP_cons,
      List.countP_nil,
      show (normLabel "yes" == "yes") = true from rfl,
      show (normLabel "no" == "yes") = false from rfl]

/-- Witness for C5: the aggregation formula and the strict-mode snap,
instantiated on the fixture verdict list. -/
theorem bias_aggregation_and_strict_mode_witness :
    biasCalculateScore ⟨1/2, false, true, false, true⟩ exampleBiasVerdicts
        = ((exampleBiasVerdicts.countP
              (fun x => normLabel x.verdict == "yes") : ℕ) : ℚ)
            / (exampleBiasVerdicts.length : ℚ)
  ∧ biasCalculateScore ⟨0, true, true, false, true⟩ exampleBiasVerdicts = 1 :=
  ⟨bias_aggregation_and_strict_mode.1 ⟨1/2, false, true, false, true⟩
      exampleBiasVerdicts rfl (by decide),
   bias_aggregation_and_strict_mode.2.2.2.2.1 ⟨0, true, true, false, true⟩
      exampleBiasVerdicts rfl rfl (by decide)⟩

end DeepevalSpec
namespace DeepevalSpec

/-- A faithfulness judge that extracts no claims, so the verdict stage
short-circuits to zero verdicts. -/
def emptyClaimsFaithfulnessJudge : FaithfulnessJudge where
  genTruths _ := .ok ["t1"]
  aGenTruths _ := .ok ["t1"]
  genClaims _ := .ok []
  aGenClaims _ := .ok []
  genVerdicts _ _ := .ok []
  aGenVerdicts _ _ := .ok []
  genReason _ _ := .ok "no contradictions"
  aGenReason _ _ := .ok "no contradictions"

/-- The spec §8 faithfulness verdict list `[no, no]`. -/
def exampleFaithfulnessVerdicts : List FaithfulnessVerdict :=
  [{ verdict := "no", reason := some "c1" }, { verdict := "no" }]

/-- When faithfulness `a_measure` succeeds, the recorded success is the
score-threshold comparison. -/
lemma faithfulnessAMeasure_ok_success (cfg : FaithfulnessConfig)
    (j : FaithfulnessJudge) (tc : LLMTestCase) (st : FaithfulnessEvalState)
    (h : faithfulnessAMeasure cfg j tc = .ok st) :
    st.success = decide (st.score ≥ cfg.threshold) := by
  unfold faithfulnessAMeasure at h
  obtain ⟨u, hu, h⟩ := except_bind_ok h
  obtain ⟨truths, ht, h⟩ := except_bind_ok h
  obtain ⟨claims, hc, h⟩ := except_bind_ok h
  obtain ⟨verdicts, hv, h⟩ := except_bind_ok h
  obtain ⟨reason, hr, h⟩ := except_bind_ok h
  simp only [pure, Except.pure, Except.ok.injEq] at h
  subst h
  rfl

/-- When the faithfulness sync measure body succeeds, the recorded
success is the score-threshold comparison. -/
lemma faithfulnessMeasureSyncBody_ok_success (cfg : FaithfulnessConfig)
    (j : FaithfulnessJudge) (tc : LLMTestCase) (st : FaithfulnessEvalState)
    (h : faithfulnessMeasureSyncBody cfg j tc = .ok st) :
    st.success = decide (st.score ≥ cfg.threshold) := by
  unfold faithfulnessMeasureSyncBody at h
  obtain ⟨truths, ht, h⟩ := except_bind_ok h
  obtain ⟨claims, hc, h⟩ := except_bind_ok h
  obtain ⟨verdicts, hv, h⟩ := except_bind_ok h
  obtain ⟨reason, hr, h⟩ := except_bind_ok h
  simp only [pure, Except.pure, Except.ok.injEq] at h
  subst h
  rfl

/-- Success recorded by faithfulness `measure` in either branch compares
the score against the threshold. -/
lemma faithfulnessMeasure_ok_success (cfg : FaithfulnessConfig)
    (j : FaithfulnessJudge) (tc : LLMTestCase)
    (r : Option ℚ × FaithfulnessEvalState)
    (h : faithfulnessMeasure cfg j tc = .ok r) :
    r.2.success = decide (r.2.score ≥ cfg.threshold) := by
  unfold faithfulnessMeasure at h
  obtain ⟨u, hu, h⟩ := except_bind_ok h
  split at h
  · obtain ⟨st, hst, h⟩ := except_bind_ok h
    simp only [pure, Except.pure, Except.ok.injEq] at h
    subst h
    exact faithfulnessAMeasure_ok_success cfg j tc st hst
  · obtain ⟨st, hst, h⟩ := except_bind_ok h
    simp only [pure, Except.pure, Except.ok.injEq] at h
    subst h
    exact faithfulnessMeasureSyncBody_ok_success cfg j tc st hst

/-- C6: a faithfulness verdict counts as positive iff its trimmed,
lowercased label is not "no"; the score is positive over total; zero
verdicts score 1, and a full evaluation with zero verdicts at the default
threshold 0.5 returns score 1 with success true; success holds iff the
score is at least the threshold; strict mode stores threshold 1, returns
0 for any computed score below 1 and leaves a score of 1 unchanged. -/
theorem faithfulness_aggregation_and_strict_mode :
    (∀ (cfg : FaithfulnessConfig) (v : List FaithfulnessVerdict),
        cfg.strict_mode = false → v.length ≠ 0 →
        faithfulnessCalculateScore cfg v
          = ((v.countP (fun x => !(normLabel x.verdict == "no")) : ℕ) : ℚ)
              / (v.length : ℚ))
  ∧ (∀ cfg : FaithfulnessConfig, faithfulnessCalculateScore cfg [] = 1)
  ∧ (∀ (cfg : FaithfulnessConfig) (j : FaithfulnessJudge) (tc : LLMTestCase)
        (r : Option ℚ × FaithfulnessEvalState),
        faithfulnessMeasure cfg j tc = .ok r →
        r.2.success = decide (r.2.score ≥ cfg.threshold))
  ∧ (∀ θ : ℚ, faithfulnessInitThreshold true θ = 1)
  ∧ (∀ (cfg : FaithfulnessConfig) (v : List FaithfulnessVerdict),
        cfg.strict_mode = true → cfg.threshold = 1 →
        v.countP (fun x => !(normLabel x.verdict == "no")) < v.length →
        faithfulnessCalculateScore cfg v = 0)
  ∧ (∀ (cfg : FaithfulnessConfig) (v : List FaithfulnessVerdict),
        cfg.strict_mode = true → cfg.threshold = 1 →
        v.countP (fun x => !(normLabel x.verdict == "no")) = v.length →
        faithfulnessCalculateScore cfg v = 1)
  ∧ (faithfulnessMeasure ⟨1/2, false, true, false, true⟩
        emptyClaimsFaithfulnessJudge exampleTestCase).toOption.map
      (fun r => (r.1, r.2.score, r.2.success)) = some (some 1, 1, true) := by
  refine ⟨?_, fun cfg => rfl, faithfulnessMeasure_ok_success, fun θ => rfl,
    ?_, ?_, ?_⟩
  · intro cfg v hs hl
    unfold faithfulnessCalculateScore
    dsimp only
    rw [if_neg hl, if_neg]
    simp [hs]
  · intro cfg v hs ht hc
    have hl : v.length ≠ 0 := by omega
    unfold faithfulnessCalculateScore
    dsimp only
    rw [if_neg hl, if_pos]
    refine ⟨hs, ?_⟩
    rw [ht]
    have h1 : (0 : ℚ) < (v.length : ℚ) := by
      have : 0 < v.length := by omega
      exact_mod_cast this
    rw [div_lt_one h1]
    exact_mod_cast hc
  · intro cfg v hs ht hc
    by_cases hl : v.length = 0
    · unfold faithfulnessCalculateScore
      dsimp only
      rw [if_pos hl]
    · have h1 : (0 : ℚ) < (v.length : ℚ) := by
        have : 0 < v.length := Nat.pos_of_ne_zero hl
        exact_mod_cast this
      unfold faithfulnessCalculateScore
      dsimp only
      rw [if_neg hl, hc, ht, div_self (ne_of_gt h1)]
      norm_num
  · norm_num [faithfulnessMeasure, faithfulnessMeasureSyncBody,
      faithfulnessCheckParams, faithfulnessGenerateVerdicts,
      faithfulnessGenerateReason, faithfulnessSelectContradictions,
      faithfulnessCalculateScore, emptyClaimsFaithfulnessJudge,
      exampleTestCase, Bind.bind, Except.bind, pure, Except.pure,
      Except.map, Except.toOption]

/-- Witness for C6: the aggregation formula and the strict-mode snap on
the `[no, no]` fixture. -/
theorem faithfulness_aggregation_and_strict_mode_witness :
    faithfulnessCalculateScore ⟨1/2, false, true, false, true⟩
        exampleFaithfulnessVerdicts
      = ((exampleFaithfulnessVerdicts.countP
            (fun x => !(normLabel x.verdict == "no")) : ℕ) : ℚ)
          / (exampleFaithfulnessVerdicts.length : ℚ)
  ∧ faithfulnessCalculateScore ⟨1, true, true, false, true⟩
        exampleFaithfulnessVerdicts = 0 :=
  ⟨faithfulness_aggregation_and_strict_mode.1 ⟨1/2, false, true, false, true⟩
      exampleFaithfulnessVerdicts rfl (by decide),
   faithfulness_aggregation_and_strict_mode.2.2.2.2.1
      ⟨1, true, true, false, true⟩ exampleFaithfulnessVerdicts rfl rfl
      (by decide)⟩

end DeepevalSpec
namespace DeepevalSpec

/-- The spec §8 coverage fixture: original answers `[yes, yes, no]`
paired with summary answers `[yes, no, no]`. -/
def exampleCoverageVerdicts : List SummarizationCoverageVerdict :=
  [{ summary_verdict := "yes", original_verdict := "yes", question := some "q1" },
   { summary_verdict := "no", original_verdict := "yes", question := some "q2" },
   { summary_verdict := "no", original_verdict := "no", question := some "q3" }]

/-- A deterministic summarization judge used by the concrete pipeline
runs: it extracts no claims and answers "no" to every assessment
question. -/
def exampleSummarizationJudge : SummarizationJudge where
  genClaims _ := .ok []
  genQuestions _ _ := .ok ["g1"]
  genAnswers _ _ := .ok ["no"]
  genAlignmentVerdicts _ _ := .ok []
  genReason _ _ _ _ := .ok "r"

/-- A summarization configuration with one caller-supplied assessment
question, non-strict, threshold 0, reasons off. -/
def exampleSummarizationConfig : SummarizationConfig :=
  { threshold := 0, n := 5, assessment_questions := some ["q"],
    include_reason := false, strict_mode := false, async_mode := false,
    using_native_model := true }

/-- The state the example summarization run records. -/
def exampleSummarizationRun : ℚ × SummarizationEvalState :=
  (0, { truths := [], claims := []
        coverage_verdicts :=
          [{ summary_verdict := "no", original_verdict := "no",
             question := some "q" }]
        alignment_verdicts := []
        coverage_score := 0, alignment_score := 0, score := 0
        reason := none, success := true
        assessment_questions := some ["q"] })

/-- When the summarization sync measure succeeds, the final score is the
minimum of the alignment and coverage sub-scores and success is the
threshold comparison. -/
lemma summarizationMeasure_ok_min_and_success (cfg : SummarizationConfig)
    (j : SummarizationJudge) (tc : LLMTestCase)
    (r : ℚ × SummarizationEvalState)
    (h : summarizationMeasure cfg j tc = .ok r) :
    r.2.score = min r.2.alignment_score r.2.coverage_score
      ∧ r.2.success = decide (r.2.score ≥ cfg.threshold) := by
  unfold summarizationMeasure at h
  obtain ⟨u, hu, h⟩ := except_bind_ok h
  obtain ⟨st, hst, h⟩ := except_bind_ok h
  simp only [pure, Except.pure, Except.ok.injEq] at h
  subst h
  unfold summarizationMeasureSyncBody at hst
  obtain ⟨truths, ht, hst⟩ := except_bind_ok hst
  obtain ⟨claims, hc, hst⟩ := except_bind_ok hst
  obtain ⟨p, hp, hst⟩ := except_bind_ok hst
  obtain ⟨aq, cov⟩ := p
  obtain ⟨av, ha, hst⟩ := except_bind_ok hst
  obtain ⟨reason, hr, hst⟩ := except_bind_ok hst
  simp only [pure, Except.pure, Except.ok.injEq] at hst
  subst hst
  exact ⟨rfl, rfl⟩

/-- C7: the summarization coverage score is the number of verdict pairs
answering "yes" on both the original and the summary, divided by the
number of pairs answering "yes" on the original, and 0 when that
denominator is 0; the §8 fixture scores 0.5; the final score of a
measurement is the minimum of the alignment and coverage sub-scores,
with success iff that minimum reaches the threshold. -/
theorem summarization_coverage_and_final_score :
    (∀ (θ : ℚ) (qs : List String)
        (av : List SummarizationAlignmentVerdict)
        (cv : List SummarizationCoverageVerdict),
        summarizationCalculateScore false θ (some qs) av cv .COVERAGE
          = if cv.countP (fun v => normLabel v.original_verdict == "yes") = 0
            then 0
            else ((cv.countP (fun v =>
                    normLabel v.original_verdict == "yes"
                      && normLabel v.summary_verdict == "yes") : ℕ) : ℚ)
              / ((cv.countP (fun v =>
                    normLabel v.original_verdict == "yes") : ℕ) : ℚ))
  ∧ summarizationCalculateScore false (1/2) (some ["q1", "q2", "q3"]) []
      exampleCoverageVerdicts .COVERAGE = 1/2
  ∧ (∀ (cfg : SummarizationConfig) (j : SummarizationJudge)
        (tc : LLMTestCase) (r : ℚ × SummarizationEvalState),
        summarizationMeasure cfg j tc = .ok r →
        r.2.score = min r.2.alignment_score r.2.coverage_score
          ∧ r.2.success = decide (r.2.score ≥ cfg.threshold)) := by
  refine ⟨?_, ?_, summarizationMeasure_ok_min_and_success⟩
  · intro θ qs av cv
    unfold summarizationCalculateScore
    dsimp only
    by_cases hd : cv.countP (fun v => normLabel v.original_verdict == "yes") = 0
    · simp [hd]
    · simp [hd]
  · unfold summarizationCalculateScore
    norm_num [show exampleCoverageVerdicts.countP
        (fun v => normLabel v.original_verdict == "yes") = 2 from rfl,
      show exampleCoverageVerdicts.countP
        (fun v => normLabel v.original_verdict == "yes"
          && normLabel v.summary_verdict == "yes") = 1 from rfl]

/-- Witness for C7: the coverage formula at the fixture list, and the
min/success shape of the concrete example run. -/
theorem summarization_coverage_and_final_score_witness :
    (summarizationCalculateScore false (1/2) (some ["q1", "q2", "q3"]) []
        exampleCoverageVerdicts .COVERAGE
      = if exampleCoverageVerdicts.countP
            (fun v => normLabel v.original_verdict == "yes") = 0
        then 0
        else ((exampleCoverageVerdicts.countP (fun v =>
                normLabel v.original_verdict == "yes"
                  && normLabel v.summary_verdict == "yes") : ℕ) : ℚ)
          / ((exampleCoverageVerdicts.countP (fun v =>
                normLabel v.original_verdict == "yes") : ℕ) : ℚ))
  ∧ (exampleSummarizationRun.2.score
        = min exampleSummarizationRun.2.alignment_score
            exampleSummarizationRun.2.coverage_score
      ∧ exampleSummarizationRun.2.success
        = decide (exampleSummarizationRun.2.score
            ≥ exampleSummarizationConfig.threshold)) :=
  ⟨summarization_coverage_and_final_score.1 (1/2) ["q1", "q2", "q3"] []
      exampleCoverageVerdicts,
   summarization_coverage_and_final_score.2.2 exampleSummarizationConfig
      exampleSummarizationJudge exampleTestCase exampleSummarizationRun
      rfl⟩

end DeepevalSpec
namespace DeepevalSpec

/-- A summarization configuration in which the caller supplied no
assessment questions. -/
def exampleNoQuestionsConfig : SummarizationConfig :=
  { threshold := 0, n := 5, assessment_questions := none,
    include_reason := false, strict_mode := false, async_mode := false,
    using_native_model := true }

/-- The state the no-questions example run records: the pipeline
generated the question "g1" and stored it on the attribute, and the
coverage score was computed from the generated-question verdicts. -/
def exampleGeneratedRun : ℚ × SummarizationEvalState :=
  (0, { truths := [], claims := []
        coverage_verdicts :=
          [{ summary_verdict := "no", original_verdict := "no",
             question := some "g1" }]
        alignment_verdicts := []
        coverage_score := 0, alignment_score := 0, score := 0
        reason := none, success := true
        assessment_questions := some ["g1"] })

/-- C4, counterexample: with no caller-configured assessment questions
(`assessment_questions = none`) a full evaluation does not score
coverage as 1: the coverage stage generates questions first, so the
coverage score here is 0. -/
theorem coverage_default_counterexample :
    exampleNoQuestionsConfig.assessment_questions = none
  ∧ (summarizationMeasure exampleNoQuestionsConfig exampleSummarizationJudge
        exampleTestCase).toOption.map (fun r => r.2.coverage_score) = some 0
  ∧ (0 : ℚ) ≠ 1 :=
  ⟨rfl, rfl, by norm_num⟩

/-- C4, amended: the coverage calculator returns 1 exactly when the
`assessment_questions` attribute is `None` at scoring time; in a full
evaluation the coverage stage runs first, leaves the attribute populated
(generating questions if the caller supplied none), and the coverage
score is computed from the recorded verdicts under that populated
attribute. -/
theorem coverage_default_amended :
    (∀ (s : Bool) (θ : ℚ) (av : List SummarizationAlignmentVerdict)
        (cv : List SummarizationCoverageVerdict),
        summarizationCalculateScore s θ none av cv .COVERAGE = 1)
  ∧ (∀ (cfg : SummarizationConfig) (j : SummarizationJudge)
        (tc : LLMTestCase) (r : ℚ × SummarizationEvalState),
        summarizationMeasure cfg j tc = .ok r →
        r.2.assessment_questions.isSome = true
          ∧ r.2.coverage_score
            = summarizationCalculateScore cfg.strict_mode cfg.threshold
                r.2.assessment_questions r.2.alignment_verdicts
                r.2.coverage_verdicts .COVERAGE) := by
  refine ⟨fun s θ av cv => rfl, ?_⟩
  intro cfg j tc r h
  unfold summarizationMeasure at h
  obtain ⟨u, hu, h⟩ := except_bind_ok h
  obtain ⟨st, hst, h⟩ := except_bind_ok h
  simp only [pure, Except.pure, Except.ok.injEq] at h
  subst h
  unfold summarizationMeasureSyncBody at hst
  obtain ⟨truths, ht, hst⟩ := except_bind_ok hst
  obtain ⟨claims, hc, hst⟩ := except_bind_ok hst
  obtain ⟨p, hp, hst⟩ := except_bind_ok hst
  obtain ⟨aq, cov⟩ := p
  obtain ⟨av, ha, hst⟩ := except_bind_ok hst
  obtain ⟨reason, hr, hst⟩ := except_bind_ok hst
  simp only [pure, Except.pure, Except.ok.injEq] at hst
  subst hst
  exact ⟨rfl, rfl⟩

/-- Witness for C4 (amended): the calculator default on empty inputs,
and the concrete no-questions run, whose attribute ends populated with
the generated question. -/
theorem coverage_default_amended_witness :
    summarizationCalculateScore false 0 none [] [] .COVERAGE = 1
  ∧ (exampleGeneratedRun.2.assessment_questions.isSome = true
      ∧ exampleGeneratedRun.2.coverage_score
        = summarizationCalculateScore exampleNoQuestionsConfig.strict_mode
            exampleNoQuestionsConfig.threshold
            exampleGeneratedRun.2.assessment_questions
            exampleGeneratedRun.2.alignment_verdicts
            exampleGeneratedRun.2.coverage_verdicts .COVERAGE) :=
  ⟨coverage_default_amended.1 false 0 [] [],
   coverage_default_amended.2 exampleNoQuestionsConfig
      exampleSummarizationJudge exampleTestCase exampleGeneratedRun rfl⟩

/-- C8: when the judge answer lists for the original input and for the
candidate summary have different lengths, coverage-verdict generation
raises the length-mismatch `ValueError` and the whole measurement
returns that error instead of a result — in the sync path through
`summarizationMeasure` and in the async segment model alike. -/
theorem coverage_length_mismatch_aborts :
    (∀ (cfg : SummarizationConfig) (j : SummarizationJudge)
        (tc : LLMTestCase) (aq ts cs orig summ : List String),
        tc.input.isSome = true → tc.actual_output.isSome = true →
        cfg.assessment_questions = some aq →
        j.genClaims (tc.input.getD "") = .ok ts →
        j.genClaims (tc.actual_output.getD "") = .ok cs →
        j.genAnswers aq (tc.input.getD "") = .ok orig →
        j.genAnswers aq (tc.actual_output.getD "") = .ok summ →
        orig.length ≠ summ.length →
        summarizationMeasure cfg j tc
          = .error (.lengthMismatch
              "Number of verdicts generated does not equal."))
  ∧ (∀ (j : CovJudge) (shared : Option (List String)) (t : CovTask),
        t.pc = .buildV → t.origAnswers.length ≠ t.summAnswers.length →
        (covStepTask j shared t).2.result
          = some (.error (.lengthMismatch
              "Number of verdicts generated does not equal."))) := by
  constructor
  · intro cfg j tc aq ts cs orig summ hin hout hcfg hts hcs ho hs hlen
    unfold summarizationMeasure summarizationMeasureSyncBody
      summGenerateCoverageVerdicts summarizationCheckParams
    rw [hcfg]
    simp [hin, hout, hts, hcs, ho, hs, hlen, Bind.bind, Except.bind, pure,
      Except.pure, throw, throwThe, MonadExceptOf.throw]
  · intro j shared t hpc hlen
    unfold covStepTask
    rw [hpc]
    dsimp only
    rw [if_pos hlen]

/-- Witness for C8: a judge returning three original answers and two
summary answers aborts the concrete measurement with the
length-mismatch error, and the async segment model records the same
error. -/
theorem coverage_length_mismatch_aborts_witness :
    summarizationMeasure
        { threshold := 0, n := 5, assessment_questions := some ["q1"],
          include_reason := false, strict_mode := false, async_mode := false,
          using_native_model := true }
        { genClaims := fun _ => .ok []
          genQuestions := fun _ _ => .ok ["q1"]
          genAnswers := fun _ t => if t = "in" then .ok ["a", "b", "c"]
            else .ok ["d", "e"]
          genAlignmentVerdicts := fun _ _ => .ok []
          genReason := fun _ _ _ _ => .ok "r" }
        exampleTestCase
      = .error (.lengthMismatch "Number of verdicts generated does not equal.")
  ∧ (covStepTask
        { questions := fun _ => ["q1"], answers := fun _ _ => [] }
        (some ["q1"])
        { tc := { input := "in", actual_output := "out" }, pc := .buildV,
          origAnswers := ["a", "b", "c"], summAnswers := ["d", "e"] }).2.result
      = some (.error (.lengthMismatch
          "Number of verdicts generated does not equal.")) :=
  ⟨coverage_length_mismatch_aborts.1 _ _ exampleTestCase ["q1"] [] []
      ["a", "b", "c"] ["d", "e"] rfl rfl rfl rfl rfl rfl rfl (by decide),
   coverage_length_mismatch_aborts.2 _ (some ["q1"]) _ rfl (by decide)⟩

end DeepevalSpec
namespace DeepevalSpec

/-- C9: for every metric (bias, faithfulness, summarization) and every
metric state, `is_successful` returns a boolean (it is total in this
embedding, mirroring that the Python bodies catch every comparison
failure): a recorded error forces false, a never-computed score (whose
comparison would raise and be caught) yields false, and otherwise the
result is the score-threshold comparison in the direction of the
metric. -/
theorem is_successful_never_raises_and_error_forces_false :
    ∀ st : MetricStatus,
      (st.error.isSome = true →
        biasIsSuccessful st = false ∧ faithfulnessIsSuccessful st = false
          ∧ summarizationIsSuccessful st = false)
    ∧ (st.score = none →
        biasIsSuccessful st = false ∧ faithfulnessIsSuccessful st = false
          ∧ summarizationIsSuccessful st = false)
    ∧ (∀ s : ℚ, st.error = none → st.score = some s →
        biasIsSuccessful st = decide (s ≤ st.threshold)
          ∧ faithfulnessIsSuccessful st = decide (s ≥ st.threshold)
          ∧ summarizationIsSuccessful st = decide (s ≥ st.threshold)) := by
  intro st
  refine ⟨?_, ?_, ?_⟩
  · intro he
    simp [biasIsSuccessful, faithfulnessIsSuccessful,
      summarizationIsSuccessful, he]
  · intro hs
    unfold biasIsSuccessful faithfulnessIsSuccessful summarizationIsSuccessful
    rw [hs]
    refine ⟨?_, ?_, ?_⟩ <;> (split <;> rfl)
  · intro s he hsc
    simp [biasIsSuccessful, faithfulnessIsSuccessful,
      summarizationIsSuccessful, he, hsc]

/-- Witness for C9: a state with a recorded error, a state with no
score, and a state with score 1 at threshold 0, instantiated through the
theorem. -/
theorem is_successful_never_raises_witness :
    (biasIsSuccessful { error := some "boom", score := none, threshold := 0 }
        = false)
  ∧ (faithfulnessIsSuccessful { error := none, score := none, threshold := 0 }
        = false)
  ∧ (summarizationIsSuccessful { error := none, score := some 1, threshold := 0 }
        = decide ((1 : ℚ) ≥ (0 : ℚ))) :=
  ⟨((is_successful_never_raises_and_error_forces_false
      { error := some "boom", score := none, threshold := 0 }).1 rfl).1,
   ((is_successful_never_raises_and_error_forces_false
      { error := none, score := none, threshold := 0 }).2.1 rfl).2.1,
   ((is_successful_never_raises_and_error_forces_false
      { error := none, score := some 1, threshold := 0 }).2.2 1 rfl rfl).2.2⟩

/-- A populated cache entry whose configuration disagrees with the live
metric on threshold, strict mode and model identity. -/
def exampleCachedMetadata : MetricMetadata :=
  { score := 9/10, threshold := 9/10, success := true,
    reason := some "cached reason", strict_mode := true,
    evaluation_model := "gpt-4" }

/-- The live metric state before the orchestrator touches it. -/
def exampleLiveMetric : OrchMetricState :=
  { score := none, threshold := 1/2, success := none, reason := none,
    strict_mode := false, evaluation_model := "gpt-3.5" }

/-- A stand-in for `a_measure` that would issue seven judge calls. -/
def exampleAMeasure : OrchMetricState → OrchMetricState × ℕ :=
  fun m => (m, 7)

/-- C3, counterexample: on the indicator path of the orchestrator a
cache hit does not copy the cached threshold or evaluation-model
identity onto the metric — the live values survive even though the
cached entry disagrees. -/
theorem cache_hit_copies_counterexample :
    (measureMetricTask (some exampleCachedMetadata) exampleLiveMetric
        exampleAMeasure).1.threshold = 1/2
  ∧ exampleCachedMetadata.threshold = 9/10
  ∧ ((1 : ℚ)/2) ≠ 9/10
  ∧ (measureMetricTask (some exampleCachedMetadata) exampleLiveMetric
        exampleAMeasure).1.evaluation_model = "gpt-3.5"
  ∧ exampleCachedMetadata.evaluation_model = "gpt-4" :=
  ⟨rfl, rfl, by norm_num, rfl, rfl⟩

/-- C3, amended: on a populated cache entry both orchestrator paths
issue zero judge calls and adopt the cached score, success and reason;
the indicator-disabled path additionally adopts threshold, strict mode
and evaluation-model identity, while the indicator path leaves every
configuration field of the metric unchanged. -/
theorem cache_hit_copies_amended :
    ∀ (md : MetricMetadata) (m : OrchMetricState)
      (f : OrchMetricState → OrchMetricState × ℕ),
      measureMetricTask (some md) m f
        = ({ m with score := some md.score
                    success := some md.success
                    reason := md.reason }, 0)
      ∧ measureMetricNoIndicator (some md) m f
        = ({ score := some md.score
             threshold := md.threshold
             success := some md.success
             reason := md.reason
             strict_mode := md.strict_mode
             evaluation_model := md.evaluation_model }, 0) :=
  fun _ _ _ => ⟨rfl, rfl⟩

/-- A faithfulness judge whose sync and async verdict channels disagree,
to observe which channel the pipeline consults. -/
def channelSplitFaithfulnessJudge : FaithfulnessJudge where
  genTruths _ := .ok ["t1"]
  aGenTruths _ := .ok ["t1"]
  genClaims _ := .ok ["c1"]
  aGenClaims _ := .ok ["c1"]
  genVerdicts _ _ := .ok [{ verdict := "no" }]
  aGenVerdicts _ _ := .ok [{ verdict := "yes" }]
  genReason _ _ := .ok "r"
  aGenReason _ _ := .ok "r"

/-- C1: the blocking entry point `measure` does not return the score in
its `async_mode` branch — the branch has no `return` statement, so the
call yields `None` — while the sync branch of the same configuration
returns the computed score and both branches record identical state
(score, success, reason) for the same judge responses; moreover the
suspending faithfulness path consults the blocking `generate` channel
for its verdict stage when the model is not a native one. -/
theorem measure_async_mode_returns_none :
    (biasMeasure ⟨1/2, false, true, true, true⟩ exampleBiasJudge
        exampleTestCase).toOption.map Prod.fst = some none
  ∧ (biasMeasure ⟨1/2, false, true, false, true⟩ exampleBiasJudge
        exampleTestCase).toOption.map Prod.fst = some (some (1/4))
  ∧ (biasMeasure ⟨1/2, false, true, true, true⟩ exampleBiasJudge
        exampleTestCase).toOption.map Prod.snd
      = (biasMeasure ⟨1/2, false, true, false, true⟩ exampleBiasJudge
        exampleTestCase).toOption.map Prod.snd
  ∧ (faithfulnessMeasure ⟨1/2, false, true, true, true⟩
        emptyClaimsFaithfulnessJudge exampleTestCase).toOption.map Prod.fst
      = some none
  ∧ (faithfulnessMeasure ⟨1/2, false, true, false, true⟩
        emptyClaimsFaithfulnessJudge exampleTestCase).toOption.map Prod.fst
      = some (some 1)
  ∧ (faithfulnessAMeasure ⟨1/2, false, false, true, false⟩
        channelSplitFaithfulnessJudge exampleTestCase).toOption.map
      (fun st => st.verdicts) = some [{ verdict := "no" }] := by
  refine ⟨rfl, ?_, rfl, rfl, rfl, rfl⟩
  norm_num [biasMeasure, biasMeasureSyncBody, biasCheckParams,
    biasGenerateVerdicts, biasGenerateReason, biasSelectBiases,
    biasCalculateScore, exampleBiasJudge, exampleTestCase,
    exampleBiasVerdicts, Bind.bind, Except.bind, pure, Except.pure,
    Except.map, Except.toOption, List.countP_cons, List.countP_nil,
    show (normLabel "yes" == "yes") = true from rfl,
    show (normLabel "no" == "yes") = false from rfl]

/-- The coverage judge for the interleaving scenario: task A generates
question list `["QA"]` from its input, task B would generate `["QB"]`,
and the answers depend on which question list is used. -/
def exampleCovJudge : CovJudge where
  questions i := if i = "inA" then ["QA"] else ["QB"]
  answers qs _ := if qs = ["QA"] then ["yes"] else ["no"]

/-- Test case of the first concurrent evaluation. -/
def exampleCovCaseA : CovCase := { input := "inA", actual_output := "outA" }

/-- Test case of the second concurrent evaluation. -/
def exampleCovCaseB : CovCase := { input := "inB", actual_output := "outB" }

/-- C2: the shared `assessment_questions` attribute breaks both halves
of the isolation claim. Sequentially (task A runs to completion, then
task B) task B reuses the questions A generated and reports a
"yes"/"yes" pair for question QA; under the interleaving in which both
tasks observe the attribute still empty, task B reports a "no"/"no"
pair for its own question QB — a different result from the sequential
run. And in a schedule where B runs while A is still unfinished, the
questions A generated and wrote to the shared attribute are read by B
and appear in its verdicts. -/
theorem shared_assessment_questions_race :
    (covRun exampleCovJudge (covInit exampleCovCaseA exampleCovCaseB)
        [false, false, false, true, true]).taskB.result
      = some (.ok [{ summary_verdict := "yes"
                     original_verdict := "yes"
                     question := some "QA" }])
  ∧ (covRun exampleCovJudge (covInit exampleCovCaseA exampleCovCaseB)
        [false, true, false, true, false, true]).taskB.result
      = some (.ok [{ summary_verdict := "no"
                     original_verdict := "no"
                     question := some "QB" }])
  ∧ (covRun exampleCovJudge (covInit exampleCovCaseA exampleCovCaseB)
        [false, false, false, true, true]).taskB.result
      ≠ (covRun exampleCovJudge (covInit exampleCovCaseA exampleCovCaseB)
        [false, true, false, true, false, true]).taskB.result
  ∧ (covRun exampleCovJudge (covInit exampleCovCaseA exampleCovCaseB)
        [false, false, true, true]).taskA.pc ≠ CovPC.finished
  ∧ (covRun exampleCovJudge (covInit exampleCovCaseA exampleCovCaseB)
        [false, false, true, true]).taskB.result
      = some (.ok [{ summary_verdict := "yes"
                     original_verdict := "yes"
                     question := some "QA" }]) := by
  refine ⟨rfl, rfl, by decide, by decide, rfl⟩

end DeepevalSpec
